import Mathlib

/-!
Verification of the KokoTales story-generation core.

This file shallowly embeds the pipeline code of the repository:
the Gemini service wrapper (credential failover, bounded image retry,
character description parsing, conditioning-image selection), the story
generation orchestrator (progress reporting, per-panel failure
containment, character filtering), the video generator (cover-image
precondition) and the story storage layer (quota eviction and retry).

Conventions of the embedding:
* Asynchronous provider calls are modelled as explicit oracle functions
  returning `Except String α` (a thrown `Error` is `.error message`).
* JavaScript string truthiness (`undefined`, `null` and `""` are falsy)
  is modelled by `truthy : Option String → Bool`.
* `Date` values are carried as millisecond counts (`Nat`).
* `localStorage` is modelled as an insertion-ordered key-value store
  with a byte capacity; `setItem` fails (QuotaExceededError) exactly
  when the store would exceed its capacity.  The byte size of the JSON
  serialization of a value is modelled by a structural size function,
  and JSON round-tripping is modelled as exact.
-/

namespace KokoTales

/-- JS truthiness of an optional string: `undefined` and `""` are falsy. -/
def truthy : Option String → Bool
  | none => false
  | some s => !s.isEmpty

/-- JS `a || d` for an optional string `a`: the default is taken when
`a` is `undefined` or `""`. -/
def jsOr (a : Option String) (d : String) : String :=
  match a with
  | none => d
  | some s => if s.isEmpty then d else s

/-- JS template interpolation of a possibly-undefined string: an
`undefined` value prints as the text `undefined`. -/
def jsShow : Option String → String
  | none => "undefined"
  | some s => s

/-! ## Data model (src/lib/types.ts, extended variant) -/

/-- `StoryConfig` from types.ts.  The enum-typed fields are carried as
strings. -/
structure StoryConfig where
  prompt : String
  theme : String
  style : String
  characters : List String
  setting : String
  characterCount : Nat
  pageCount : Option Nat
  targetAge : Option String
deriving DecidableEq

/-- `Character` from types.ts. -/
structure Character where
  id : String
  name : String
  description : Option String
  uploadedImage : Option String
  base64Image : Option String
  mimeType : Option String
  generatedDescription : Option String
  generatedDesignImage : Option String
  designApproved : Option Bool
  generatedArtwork : Option String
deriving DecidableEq

/-- `Panel` from types.ts. -/
structure Panel where
  id : String
  title : Option String
  description : String
  characters : List String
  imageUrl : Option String
  dialogue : Option (List String)
  narration : Option String
deriving DecidableEq

/-- `StoryPage` from types.ts. -/
structure StoryPage where
  id : String
  panels : List Panel
  pageNumber : Nat
deriving DecidableEq

/-- `GeneratedStory` from types.ts; `createdAt` is a millisecond
timestamp. -/
structure GeneratedStory where
  id : String
  config : StoryConfig
  characters : List Character
  pages : List StoryPage
  title : String
  createdAt : Nat
  coverImage : Option String
  coverVideo : Option String
  coverVideoRequestId : Option String
deriving DecidableEq

/-! ## Credential failover (gemini-service, `callGeminiWithFallback`)

The retryable-error test is `error.message` containing `403`, `429`,
`503` or `quota`; when a fallback client is configured the identical
request is re-issued once against it. -/

/-- `sub` occurs as a substring of `s` (JS `String.prototype.includes`). -/
def strIncludes (s sub : String) : Bool :=
  decide (sub.data <:+: s.data)

/-- The retryable-error predicate of `callGeminiWithFallback`. -/
def isRetryableGeminiError (msg : String) : Bool :=
  strIncludes msg "403" || strIncludes msg "429" ||
  strIncludes msg "503" || strIncludes msg "quota"

/-- `callGeminiWithFallback`: run the request against the primary
client; on a retryable failure with a configured fallback client, run
the identical request once against the fallback.  Returns the result
together with the list of clients the request was issued to, in
order. -/
def callGeminiWithFallback {Cred T : Type} (ai : Cred) (aiFallback : Option Cred)
    (apiCall : Cred → Except String T) : Except String T × List Cred :=
  match apiCall ai with
  | .ok v => (.ok v, [ai])
  | .error e =>
    match aiFallback with
    | some fb =>
      if isRetryableGeminiError e then (apiCall fb, [ai, fb]) else (.error e, [ai])
    | none => (.error e, [ai])

/-! ## Character descriptions (gemini-service, `generateCharacterDescriptions`)

The provider response is modelled at the point of use: either the JSON
text failed to parse (`none`) or it parsed to a list of records. -/

/-- One element of the parsed character-description JSON array. -/
structure GenCharRecord where
  name : String
  description : String
  personality : String
  appearance : String
  role : String
deriving DecidableEq

/-- JS `opt?.field || default` where a parsed record may be absent. -/
def jsFieldOr (r : Option String) (d : String) : String :=
  jsOr r d

/-- The result-mapping step of `generateCharacterDescriptions`: on an
unparseable response throw; otherwise map each input character to
itself with `description` and `generatedDescription` taken from the
record at the same index, falling back to fixed defaults when the
record is missing or the field is falsy. -/
def generateCharacterDescriptions (characters : List Character)
    (parsed : Option (List GenCharRecord)) : Except String (List Character) :=
  match parsed with
  | none => .error "The AI returned an invalid character description format."
  | some gen =>
    .ok (characters.enum.map fun ic =>
      { ic.2 with
        description := some (jsFieldOr ((gen.get? ic.1).map (·.description))
          ("A friendly character named " ++ ic.2.name))
        generatedDescription := some (jsFieldOr ((gen.get? ic.1).map (·.appearance))
          "A cartoon character with bright, friendly features") })

/-! ## Bounded image retry (gemini-service, `generateCharacterDesign`)

An image-producing call scans `candidates[0].content.parts` for the
first part carrying inline image data; a response without image data or
a thrown error is retried once after a fixed 1 s delay; after the
second failure the last error is thrown. -/

/-- `part.inlineData` of a provider response part. -/
structure InlineData where
  data : Option String
  mimeType : Option String
deriving DecidableEq

/-- One part of a provider response candidate. -/
structure GPart where
  inlineData : Option InlineData
deriving DecidableEq

/-- Scan the parts for the first truthy inline image payload and render
it as a data URI, as the part-scanning loop does. -/
def firstInlineImage : List GPart → Option String
  | [] => none
  | p :: rest =>
    match p.inlineData with
    | some idata =>
      match idata.data with
      | some d =>
        if d.isEmpty then firstInlineImage rest
        else some ("data:" ++ jsShow idata.mimeType ++ ";base64," ++ d)
      | none => firstInlineImage rest
    | none => firstInlineImage rest

/-- `response.candidates?.[0]?.content?.parts` modelled as an optional
part list; absent path means no image. -/
def extractInlineImage : Option (List GPart) → Option String
  | none => none
  | some parts => firstInlineImage parts

/-- The no-image error message of attempt `a`. -/
def noImageMsg (a : Nat) : String :=
  "Character design generation failed: No image data in response (attempt " ++
    toString a ++ "/2)"

/-- The thrown-error message of attempt `a`. -/
def attemptFailMsg (a : Nat) (m : String) : String :=
  "Character design generation attempt " ++ toString a ++ "/2 failed: " ++ m

/-- The second loop iteration of the retry loop: returns the result,
the total number of attempts made and the number of 1 s sleeps taken.
`lastError` of attempt 1 is always overwritten by attempt 2 before the
final `throw lastError`, so it does not appear here. -/
def retrySecondAttempt (att : Nat → Except String (Option (List GPart))) :
    Except String String × Nat × Nat :=
  match att 2 with
  | .ok r =>
    match extractInlineImage r with
    | some img => (.ok img, 2, 1)
    | none => (.error (noImageMsg 2), 2, 1)
  | .error e => (.error (attemptFailMsg 2 e), 2, 1)

/-- The `for attempt in 1..2` retry loop of `generateCharacterDesign`
(the same loop body is used by `generateCoverImage`): `att a` is the
provider response of attempt `a`.  Returns the result, the number of
attempts made and the number of 1 s sleeps taken. -/
def generateImageWithRetry (att : Nat → Except String (Option (List GPart))) :
    Except String String × Nat × Nat :=
  match att 1 with
  | .ok r =>
    match extractInlineImage r with
    | some img => (.ok img, 1, 0)
    | none => retrySecondAttempt att
  | .error _ => retrySecondAttempt att

/-! ## Conditioning images (gemini-service, `generatePanelIllustration`
and `generateCoverImage`)

Both functions build the `imageParts` list by iterating the relevant
characters and pushing, per character, the generated design image
(its data-URI payload) when present, otherwise the uploaded photo when
present. -/

/-- JS `s.split(',')[1]`: the text between the first and second comma,
absent when the string has no comma. -/
def dataUriPayload (s : String) : Option String :=
  (s.splitOn ",").get? 1

/-- The capture group of `/data:([^;]+)/` applied at one candidate
position: the maximal run of non-`;` characters, failing on an empty
run. -/
def captureAfterData (l : List Char) : Option String :=
  let cap := l.takeWhile (· != ';')
  if cap.isEmpty then none else some (String.mk cap)

/-- Leftmost match of `/data:([^;]+)/` over the character list. -/
def findDataUriMime : List Char → Option String
  | [] => none
  | c :: rest =>
    if (c :: rest).take 5 = "data:".data then
      match captureAfterData ((c :: rest).drop 5) with
      | some m => some m
      | none => findDataUriMime rest
    else findDataUriMime rest

/-- `s.match(/data:([^;]+)/)?.[1] || 'image/png'`. -/
def dataUriMime (s : String) : String :=
  jsOr (findDataUriMime s.data) "image/png"

/-- An `inlineData` conditioning part as pushed onto `imageParts`. -/
structure InlineImagePart where
  data : Option String
  mimeType : Option String
deriving DecidableEq

/-- The part built from a character's `generatedDesignImage` data URI. -/
def partFromDesign (s : String) : InlineImagePart :=
  { data := dataUriPayload s, mimeType := some (dataUriMime s) }

/-- The part built from a character's uploaded photo. -/
def partFromUpload (c : Character) : InlineImagePart :=
  { data := c.base64Image, mimeType := c.mimeType }

/-- The per-character branch of the `imageParts` loop: the generated
design image if truthy, else the uploaded photo if both its fields are
truthy, else nothing. -/
def conditioningPart (c : Character) : Option InlineImagePart :=
  if truthy c.generatedDesignImage then
    some (partFromDesign (c.generatedDesignImage.getD ""))
  else if truthy c.base64Image && truthy c.mimeType then
    some (partFromUpload c)
  else none

/-- The `imageParts` push loop over a character list (shared by the
panel and cover builders). -/
def pushImageParts (chars : List Character) : List InlineImagePart :=
  chars.foldl (fun acc c =>
    match conditioningPart c with
    | some p => acc ++ [p]
    | none => acc) []

/-- `imageParts` of `generatePanelIllustration`: only characters named
in the panel contribute. -/
def panelImageParts (characters : List Character) (panel : Panel) :
    List InlineImagePart :=
  pushImageParts (characters.filter fun c => panel.characters.contains c.name)

/-- `imageParts` of `generateCoverImage`: every story character
contributes. -/
def coverImageParts (characters : List Character) : List InlineImagePart :=
  pushImageParts characters

/-! ## Video generator (video-generator.ts) -/

/-- `VideoGenerationOptions`. -/
structure VideoOptions where
  duration : Option String
  resolution : Option String
  generateAudio : Option Bool
deriving DecidableEq

/-- The input record handed to `fal.subscribe`. -/
structure SubmitInput where
  prompt : String
  imageUrl : String
  duration : String
  resolution : String
  generateAudio : Bool
deriving DecidableEq

/-- The provider's completed-job payload (`result.data.video.url` and
`result.requestId`). -/
structure SubscribeResult where
  url : String
  requestId : String
deriving DecidableEq

/-- `VideoGenerationResult`. -/
structure VideoResult where
  videoUrl : String
  requestId : String
deriving DecidableEq

/-- JS `Array.prototype.join(" ")` stringifies a nested array element by
joining it with commas; `panel.narration || panel.dialogue` yields the
narration when truthy, else the dialogue array (dropped entirely only
when both are absent). -/
def excerptItem (p : Panel) : Option String :=
  if truthy p.narration then p.narration
  else p.dialogue.map (String.intercalate ",")

/-- `createAnimationPrompt`: deterministic prompt derivation from lead
character names, theme, style and a 200-character excerpt of the first
two pages. -/
def createAnimationPrompt (story : GeneratedStory) : String :=
  let mainCharacters :=
    String.intercalate " and " ((story.characters.take 2).map (·.name))
  let storyTheme := jsOr (some story.config.theme) "adventure"
  let artStyle := jsOr (some story.config.style) "cartoon"
  let storySummary :=
    (String.intercalate " "
      (((story.pages.take 2).flatMap (·.panels)).filterMap excerptItem)).take 200
  let basePrompt :=
    "Animate this " ++ artStyle ++ " style book cover featuring " ++
      mainCharacters ++ ". "
  let t := storyTheme.toLower
  let actionPrompt :=
    if t = "adventure" then
      "Characters should have subtle heroic poses with gentle wind effects on hair and clothing. Add soft sparkles or magical particles floating around."
    else if t = "friendship" then
      "Characters should have warm, welcoming expressions with gentle swaying motions. Add soft, floating heart particles or butterflies."
    else if t = "mystery" then
      "Characters should have curious, investigative poses with subtle shadows moving. Add mysterious fog or mist effects."
    else if t = "fantasy" then
      "Characters should have magical poses with enchanted elements floating around. Add glowing magical particles and ethereal effects."
    else
      "Characters should have gentle, natural movements with subtle environmental effects like leaves or petals floating by."
  let ambiance :=
    if t = "adventure" then
      "Epic and inspiring atmosphere with warm, golden lighting."
    else if t = "friendship" then
      "Warm and cozy atmosphere with soft, pastel lighting."
    else if t = "mystery" then
      "Intriguing and mysterious atmosphere with dramatic lighting and shadows."
    else if t = "fantasy" then
      "Magical and enchanting atmosphere with mystical, colorful lighting."
    else
      "Pleasant and engaging atmosphere with natural, warm lighting."
  let stylePrompt := "Maintain the " ++ artStyle ++ " art style throughout the animation. "
  let cameraMotion := "Subtle camera zoom-in effect to create depth and engagement. "
  basePrompt ++ actionPrompt ++ " " ++ stylePrompt ++ cameraMotion ++ ambiance ++
    " The animation should bring the cover to life while maintaining the book's magical storytelling essence. Story context: " ++
    storySummary

/-- `VideoGenerator.generateCoverVideo`: the cover-image precondition
check, the `FAL_KEY` check, then a single `fal.subscribe` call whose
failure is wrapped.  `falKey` models `process.env.FAL_KEY`;
`subscribe` is the provider oracle.  The second component lists every
request actually submitted to the provider, in order. -/
def vgGenerateCoverVideo (falKey : Option String)
    (subscribe : SubmitInput → Except String SubscribeResult)
    (story : GeneratedStory) (options : VideoOptions) :
    Except String VideoResult × List SubmitInput :=
  if !truthy story.coverImage then
    (.error "Story must have a cover image to generate video", [])
  else if !truthy falKey then
    (.error "FAL_KEY environment variable is required for video generation", [])
  else
    let input : SubmitInput :=
      { prompt := createAnimationPrompt story
        imageUrl := story.coverImage.getD ""
        duration := jsOr options.duration "8s"
        resolution := jsOr options.resolution "720p"
        generateAudio := options.generateAudio.getD true }
    match subscribe input with
    | .ok r => (.ok { videoUrl := r.url, requestId := r.requestId }, [input])
    | .error e => (.error ("Failed to generate cover video: " ++ e), [input])

/-! ## Story generation orchestrator (story-generator.ts)

The orchestrator's collaborators (character cache, Gemini service,
video generator, story storage) are modelled as oracle fields of
`GenEnv`; the control flow, progress reports and error containment of
`StoryGenerator` are embedded faithfully.  `Trace` collects the
`(message, progressPercent)` pairs delivered to `onProgress`, in
order. -/

/-- The progress trace delivered to `onProgress`. -/
abbrev Trace := List (String × ℚ)

/-- `generateStory`'s parsed result: title and pages. -/
structure StoryData where
  title : String
  pages : List StoryPage
deriving DecidableEq

/-- Oracles for the orchestrator's collaborators. -/
structure GenEnv where
  loadCharactersForStory : List String → List Character
  describeCharacters : List Character → Except String (List Character)
  generateStoryStructure : List Character → Except String StoryData
  illustratePanel : Panel → List Character → String → Except String String
  generateCover : List Character → Except String String
  generateVideo : GeneratedStory → Except String VideoResult
  saveStoryToLibrary : GeneratedStory → Bool
  newId : String
  now : Nat

/-- A character has a usable visual reference (`generatedDesignImage ||
base64Image`). -/
def usableRef (c : Character) : Bool :=
  truthy c.generatedDesignImage || truthy c.base64Image

/-- The merge of a stored cache hit into the provided character:
stored fields win but the caller-supplied id is preserved. -/
def mergeStoredCharacter (provided stored : Character) : Character :=
  { stored with id := provided.id }

/-- A character still needing an AI description after the cache merge. -/
def needsDescription (c : Character) : Bool :=
  !truthy c.description && !truthy c.generatedDescription && !truthy c.base64Image

/-- `StoryGenerator.loadAndEnhanceCharacters`: merge cache hits (only
hits carrying a usable image), then describe the still-bare characters
in one batch and merge the results back by id.  Returns the result with
the progress entries it emitted. -/
def loadAndEnhanceCharacters (env : GenEnv) (characters : List Character) :
    Except String (List Character) × Trace :=
  let tr0 : Trace := [("Loading saved characters...", 10)]
  let names := characters.map (·.name)
  let loaded := env.loadCharactersForStory names
  let merged := characters.map fun pc =>
    match loaded.find? (fun lc => lc.name.toLower == pc.name.toLower) with
    | some sc =>
      if truthy sc.generatedDesignImage || truthy sc.base64Image then
        mergeStoredCharacter pc sc
      else pc
    | none => pc
  let needing := merged.filter needsDescription
  if needing.length > 0 then
    let tr1 : Trace := tr0 ++
      [("Describing " ++ toString needing.length ++ " new characters...", 15)]
    match env.describeCharacters needing with
    | .error e => (.error e, tr1)
    | .ok enhanced =>
      (.ok (merged.map fun c => (enhanced.find? (fun e => e.id == c.id)).getD c), tr1)
  else (.ok merged, tr0)

/-- The inner panel loop of `generatePanelArt` over one page's panels,
threading the global panel counter.  Returns the illustrated panels,
the progress entries, the illustration calls made and the updated
counter. -/
def panelsLoop (env : GenEnv) (chars : List Character) (style : String)
    (totalPanels : Nat) (pageNumber : Nat) :
    List Panel → Nat → List Panel × Trace × List (Panel × List Character) × Nat
  | [], current => ([], [], [], current)
  | p :: rest, current =>
    let current1 := current + 1
    let pct : ℚ := 60 + ((current1 : ℚ) / (totalPanels : ℚ)) * 35
    let msg := "Illustrating page " ++ toString pageNumber ++ ", panel " ++
      p.id ++ "..."
    let done : Panel :=
      match env.illustratePanel p chars style with
      | .ok illustration => { p with imageUrl := some illustration }
      | .error _ => p
    let rec' := panelsLoop env chars style totalPanels pageNumber rest current1
    (done :: rec'.1, (msg, pct) :: rec'.2.1, (p, chars) :: rec'.2.2.1, rec'.2.2.2)

/-- The outer page loop of `generatePanelArt`. -/
def pagesLoop (env : GenEnv) (chars : List Character) (style : String)
    (totalPanels : Nat) :
    List StoryPage → Nat → List StoryPage × Trace × List (Panel × List Character)
  | [], _ => ([], [], [])
  | pg :: rest, current =>
    let this' := panelsLoop env chars style totalPanels pg.pageNumber pg.panels current
    let rest' := pagesLoop env chars style totalPanels rest this'.2.2.2
    ({ pg with panels := this'.1 } :: rest'.1,
      this'.2.1 ++ rest'.2.1, this'.2.2.1 ++ rest'.2.2)

/-- `StoryGenerator.generatePanelArt`: iterate pages and panels in
order; a failed illustration is caught and the panel kept without an
image; progress is `60 + (currentPanel / totalPanels) * 35`. -/
def generatePanelArt (env : GenEnv) (pages : List StoryPage)
    (chars : List Character) (style : String) :
    List StoryPage × Trace × List (Panel × List Character) :=
  let totalPanels := (pages.map (·.panels.length)).sum
  pagesLoop env chars style totalPanels pages 0

/-- The outcome of one orchestrator run: the result (or the wrapped
fatal error), the full progress trace, the panel-illustration calls
made (panel and character list passed) and the character lists passed
to the cover-image calls. -/
structure RunOutcome where
  result : Except String GeneratedStory
  trace : Trace
  panelCalls : List (Panel × List Character)
  coverCalls : List (List Character)

/-- `StoryGenerator.generateCompleteStory`: the full pipeline.  Fatal
failures (character description, story structure) are wrapped by the
outer catch; cover image, persistence and cover video are best-effort. -/
def generateCompleteStory (env : GenEnv) (config : StoryConfig)
    (characters : List Character) : RunOutcome :=
  let trA : Trace := [("Preparing characters...", 5)]
  let lac := loadAndEnhanceCharacters env characters
  match lac.1 with
  | .error e =>
    { result := .error ("Failed to generate story: " ++ e)
      trace := trA ++ lac.2, panelCalls := [], coverCalls := [] }
  | .ok charactersWithDescriptions =>
    let trC := trA ++ lac.2 ++ [("Creating story structure...", (25 : ℚ))]
    match env.generateStoryStructure charactersWithDescriptions with
    | .error e =>
      { result := .error ("Failed to generate story: " ++ e)
        trace := trC, panelCalls := [], coverCalls := [] }
    | .ok storyData =>
      let trD := trC ++ [("Using approved character designs...", (35 : ℚ))]
      let charactersWithDesigns := charactersWithDescriptions.filter usableRef
      let trE := trD ++ [("Creating panel illustrations...", (45 : ℚ))]
      let art := generatePanelArt env storyData.pages charactersWithDesigns config.style
      let pagesWithIllustrations := art.1
      let panelLog := art.2.2
      let trF := trE ++ art.2.1 ++ [("Generating cover image...", (85 : ℚ))]
      let coverImage : Option String :=
        match env.generateCover charactersWithDesigns with
        | .ok img => some img
        | .error _ => none
      let trG := trF ++ [("Finalizing storybook...", (85 : ℚ))]
      let finalStory : GeneratedStory :=
        { id := env.newId, config, characters := charactersWithDesigns
          pages := pagesWithIllustrations, title := storyData.title
          createdAt := env.now, coverImage
          coverVideo := none, coverVideoRequestId := none }
      let trH := trG ++ [("Saving to library...", (90 : ℚ))]
      let _saved := env.saveStoryToLibrary finalStory
      if truthy coverImage then
        let trI := trH ++ [("Creating animated cover video...", (95 : ℚ))]
        match env.generateVideo finalStory with
        | .ok vr =>
          let storyWithVideo :=
            { finalStory with
              coverVideo := some vr.videoUrl
              coverVideoRequestId := some vr.requestId }
          let _saved2 := env.saveStoryToLibrary storyWithVideo
          { result := .ok storyWithVideo
            trace := trI ++ [("Story and video complete!", 100)]
            panelCalls := panelLog, coverCalls := [charactersWithDesigns] }
        | .error _ =>
          { result := .ok finalStory
            trace := trI ++ [("Story complete! (Video generation failed)", 100)]
            panelCalls := panelLog, coverCalls := [charactersWithDesigns] }
      else
        { result := .ok finalStory
          trace := trH ++ [("Story complete!", 100)]
          panelCalls := panelLog, coverCalls := [charactersWithDesigns] }

/-- The `progressPercent` components of a trace, in delivery order. -/
def tracePercents (tr : Trace) : List ℚ :=
  tr.map (·.2)

/-! ## Story storage (story-storage.ts)

`localStorage` is modelled as an insertion-ordered association list of
keys to structured values with a byte capacity; `setItem` fails with a
`QuotaExceededError` exactly when the store would exceed its capacity,
leaving it unchanged.  The byte size of a value's JSON serialization is
modelled by a structural size function; parsing a stored value back is
modelled as exact (dates survive as millisecond values). -/

/-- `StoredStory`: the lightweight metadata index record. -/
structure StoredStory where
  id : String
  title : String
  createdAt : Nat
  config : StoryConfig
  characterCount : Nat
  pageCount : Nat
  thumbnailImage : Option String
  storageSize : Nat
deriving DecidableEq

/-- A value held by the store: a story body or the metadata index.  A
value of the wrong shape under a key models a corrupt entry. -/
inductive Val where
  | story (s : GeneratedStory)
  | metas (l : List StoredStory)
deriving DecidableEq

/-- Length of an optional string, 0 when absent. -/
def optLen : Option String → Nat
  | none => 0
  | some s => s.length

/-- Modelled serialized size of a panel. -/
def panelSize (p : Panel) : Nat :=
  p.id.length + optLen p.title + p.description.length +
    (p.characters.map (·.length)).sum + optLen p.imageUrl +
    ((p.dialogue.getD []).map (·.length)).sum + optLen p.narration + 2

/-- Modelled serialized size of a page. -/
def pageSize (pg : StoryPage) : Nat :=
  pg.id.length + (pg.panels.map panelSize).sum + 2

/-- Modelled serialized size of a character. -/
def charSize (c : Character) : Nat :=
  c.id.length + c.name.length + optLen c.description + optLen c.uploadedImage +
    optLen c.base64Image + optLen c.mimeType + optLen c.generatedDescription +
    optLen c.generatedDesignImage + optLen c.generatedArtwork + 2

/-- Modelled serialized size of a config. -/
def configSize (cfg : StoryConfig) : Nat :=
  cfg.prompt.length + cfg.theme.length + cfg.style.length +
    (cfg.characters.map (·.length)).sum + cfg.setting.length + 2

/-- Modelled serialized size of a full story body
(`new Blob([JSON.stringify(story)]).size`). -/
def storySize (s : GeneratedStory) : Nat :=
  s.id.length + s.title.length + configSize s.config +
    (s.characters.map charSize).sum + (s.pages.map pageSize).sum +
    optLen s.coverImage + optLen s.coverVideo + optLen s.coverVideoRequestId + 4

/-- Modelled serialized size of one metadata record. -/
def metaSize (m : StoredStory) : Nat :=
  m.id.length + m.title.length + configSize m.config +
    optLen m.thumbnailImage + 4

/-- Modelled serialized size of a stored value. -/
def valSize : Val → Nat
  | .story s => storySize s
  | .metas l => (l.map metaSize).sum + 2

/-- The browser key-value store with a finite capacity. -/
structure LStore where
  entries : List (String × Val)
  capacity : Nat
deriving DecidableEq

/-- Total serialized size of the entries. -/
def entriesSize (es : List (String × Val)) : Nat :=
  (es.map (fun e => valSize e.2)).sum

/-- `localStorage.getItem`. -/
def getItem (st : LStore) (k : String) : Option Val :=
  (st.entries.find? (·.1 == k)).map (·.2)

/-- Replace the value under an existing key, or append a new entry. -/
def setEntries (es : List (String × Val)) (k : String) (v : Val) :
    List (String × Val) :=
  if es.any (·.1 == k) then
    es.map (fun e => if e.1 == k then (k, v) else e)
  else es ++ [(k, v)]

/-- `localStorage.setItem`: `none` models a thrown
`QuotaExceededError`, leaving the store unchanged. -/
def setItem (st : LStore) (k : String) (v : Val) : Option LStore :=
  let es := setEntries st.entries k v
  if entriesSize es > st.capacity then none
  else some { st with entries := es }

/-- `localStorage.removeItem`. -/
def removeItem (st : LStore) (k : String) : LStore :=
  { st with entries := st.entries.filter (·.1 != k) }

/-- `STORY_STORAGE_KEY`. -/
def STORY_STORAGE_KEY : String := "memorytales_stories"

/-- `MAX_STORIES`. -/
def MAX_STORIES : Nat := 10

/-- `MAX_STORAGE_SIZE_MB`. -/
def MAX_STORAGE_SIZE_MB : Nat := 50

/-- The metadata index key. -/
def metaKey : String := STORY_STORAGE_KEY ++ "_meta"

/-- The per-story body key. -/
def bodyKey (id : String) : String := STORY_STORAGE_KEY ++ "_" ++ id

/-- `getStoredStoryMetas`: the parsed index, `[]` when absent or
corrupt (the source catches and returns `[]`). -/
def getStoredStoryMetas (st : LStore) : List StoredStory :=
  match getItem st metaKey with
  | some (.metas l) => l
  | _ => []

/-- Stable insertion of a metadata record into a list sorted by
`createdAt` descending (JS `sort((a, b) => b.createdAt - a.createdAt)`
is stable). -/
def insertMeta (m : StoredStory) : List StoredStory → List StoredStory
  | [] => [m]
  | x :: xs => if m.createdAt < x.createdAt then x :: insertMeta m xs else m :: x :: xs

/-- Stable sort of metadata records newest-first. -/
def sortMetasDesc : List StoredStory → List StoredStory
  | [] => []
  | x :: xs => insertMeta x (sortMetasDesc xs)

/-- JS `key.startsWith(prefixStr)`, computed on the character lists. -/
def strStarts (s pre : String) : Bool :=
  pre.data.isPrefixOf s.data

/-- `getStorageUsage`: total size of values under keys in the story
namespace. -/
def getStorageUsage (st : LStore) : Nat :=
  ((st.entries.filter fun e => strStarts e.1 STORY_STORAGE_KEY).map
    fun e => valSize e.2).sum

/-- `clearAllStories`: drop every key in the story namespace. -/
def clearAllStories (st : LStore) : LStore :=
  { st with entries := st.entries.filter fun e => !strStarts e.1 STORY_STORAGE_KEY }

/-- `cleanupOldStories`, with `saveStoredStoryMetas`'s body inlined at
its tail call.  The source's `saveStoredStoryMetas` catches a failed
index write by re-running `cleanupOldStories`, an unbounded mutual
recursion totalized here by `fuel`; exhausted fuel falls back to the
source's own last resort, `clearAllStories`. -/
def cleanupOldStories : Nat → LStore → LStore
  | 0, st => clearAllStories st
  | fuel + 1, st =>
    let stories := getStoredStoryMetas st
    let recentStories := (sortMetasDesc stories).take (MAX_STORIES / 2)
    let oldStoryIds :=
      (stories.filter fun s => !(recentStories.any (·.id == s.id))).map (·.id)
    let st1 := oldStoryIds.foldl (fun acc i => removeItem acc (bodyKey i)) st
    let sorted := (sortMetasDesc recentStories).take MAX_STORIES
    match setItem st1 metaKey (.metas sorted) with
    | some st2 => st2
    | none => cleanupOldStories fuel st1

/-- `saveStoredStoryMetas`: sort newest-first, cap at `MAX_STORIES`,
write the index; a failed write is caught and answered with one
cleanup pass (never rethrown). -/
def saveStoredStoryMetas (fuel : Nat) (st : LStore) (metas : List StoredStory) :
    LStore :=
  let sorted := (sortMetasDesc metas).take MAX_STORIES
  match setItem st metaKey (.metas sorted) with
  | some st1 => st1
  | none => cleanupOldStories fuel st

/-- `generateThumbnail`: the first truthy panel image in reading
order. -/
def generateThumbnail (story : GeneratedStory) : Option String :=
  story.pages.findSome? fun pg =>
    pg.panels.findSome? fun p =>
      match p.imageUrl with
      | some u => if u.isEmpty then none else some u
      | none => none

/-- Upsert of the story's metadata record into the index list
(`findIndex` then in-place replace, else push). -/
def upsertMeta (metas : List StoredStory) (m : StoredStory) : List StoredStory :=
  match metas.findIdx? (·.id == m.id) with
  | some i => metas.set i m
  | none => metas ++ [m]

/-- `StoryStorage.saveStory`: proactive cleanup above 80 % usage, body
write, index upsert; a quota failure of the body write triggers one
cleanup pass and exactly one retry of the body write, whose failure is
reported as `false` (never an exception).  Returns the flag and the
resulting store. -/
def saveStory (fuel : Nat) (st : LStore) (story : GeneratedStory) :
    Bool × LStore :=
  let currentUsage := getStorageUsage st
  let maxSizeBytes := MAX_STORAGE_SIZE_MB * 1024 * 1024
  let st0 := if currentUsage * 10 > maxSizeBytes * 8 then cleanupOldStories fuel st else st
  let storageSize := storySize story
  let thumbnail := generateThumbnail story
  let storyMeta : StoredStory :=
    { id := story.id, title := story.title, createdAt := story.createdAt
      config := story.config, characterCount := story.characters.length
      pageCount := story.pages.length, thumbnailImage := thumbnail, storageSize }
  match setItem st0 (bodyKey story.id) (.story story) with
  | some st1 =>
    let existingMetas := getStoredStoryMetas st1
    (true, saveStoredStoryMetas fuel st1 (upsertMeta existingMetas storyMeta))
  | none =>
    let st1 := cleanupOldStories fuel st0
    match setItem st1 (bodyKey story.id) (.story story) with
    | some st2 => (true, st2)
    | none => (false, st1)

/-- `StoryStorage.loadStory`: the parsed body, `null` when absent or
corrupt. -/
def loadStory (st : LStore) (storyId : String) : Option GeneratedStory :=
  match getItem st (bodyKey storyId) with
  | some (.story s) => some s
  | _ => none

/-- `StoryStorage.getAllStoredStories`: the index sorted newest-first. -/
def getAllStoredStories (st : LStore) : List StoredStory :=
  sortMetasDesc (getStoredStoryMetas st)

/-- The per-panel outcome of the illustration loop: the panel with its
generated image on success, the panel unchanged on a caught failure. -/
def panelOutcome (env : GenEnv) (chars : List Character) (style : String)
    (p : Panel) : Panel :=
  match env.illustratePanel p chars style with
  | .ok illustration => { p with imageUrl := some illustration }
  | .error _ => p

/-! ### Concrete pipeline fixtures for the orchestrator claims -/

/-- A small story configuration shared by the concrete pipeline runs. -/
def baseConfig : StoryConfig :=
  { prompt := "a tale", theme := "adventurous", style := "comic"
    characters := [], setting := "forest", characterCount := 1
    pageCount := none, targetAge := none }

/-- A bare panel referencing the character `Rex`. -/
def mkPanel (i : String) : Panel :=
  { id := i, title := none, description := "scene " ++ i, characters := ["Rex"]
    imageUrl := none, dialogue := none, narration := none }

/-- A character with a description and an uploaded reference image. -/
def rexChar : Character :=
  { id := "h1", name := "Rex", description := some "a brave dog"
    uploadedImage := none, base64Image := some "REXBYTES"
    mimeType := some "image/png", generatedDescription := none
    generatedDesignImage := none, designApproved := none
    generatedArtwork := none }

/-- A character with a description but no usable visual reference. -/
def ghostChar : Character :=
  { id := "h2", name := "Moth", description := some "a shy moth"
    uploadedImage := none, base64Image := none, mimeType := none
    generatedDescription := none, generatedDesignImage := none
    designApproved := none, generatedArtwork := none }

/-- The generated structure of the C2 run: one page of three panels. -/
def c2SD : StoryData :=
  { title := "Three Panels"
    pages := [{ id := "pg1", panels := [mkPanel "p1", mkPanel "p2", mkPanel "p3"]
                pageNumber := 1 }] }

/-- The C2 environment: panel `p2`'s illustration call throws, all
other collaborators succeed. -/
def c2Env : GenEnv :=
  { loadCharactersForStory := fun _ => []
    describeCharacters := fun _ => .error "unused"
    generateStoryStructure := fun _ => .ok c2SD
    illustratePanel := fun p _ _ =>
      if p.id = "p2" then .error "boom" else .ok ("img-" ++ p.id)
    generateCover := fun _ => .ok "data:image/png;base64,COVER"
    generateVideo := fun _ => .ok { videoUrl := "http://v", requestId := "req1" }
    saveStoryToLibrary := fun _ => true
    newId := "story-1", now := 42 }

/-- The generated structure of the C4 run: one page, one panel. -/
def c4SD : StoryData :=
  { title := "One Panel"
    pages := [{ id := "pg1", panels := [mkPanel "p1"], pageNumber := 1 }] }

/-- The C4 environment: every collaborator succeeds. -/
def c4Env : GenEnv :=
  { loadCharactersForStory := fun _ => []
    describeCharacters := fun _ => .error "unused"
    generateStoryStructure := fun _ => .ok c4SD
    illustratePanel := fun p _ _ => .ok ("img-" ++ p.id)
    generateCover := fun _ => .ok "data:image/png;base64,COVER"
    generateVideo := fun _ => .ok { videoUrl := "http://v", requestId := "req1" }
    saveStoryToLibrary := fun _ => true
    newId := "story-4", now := 42 }

/-- The C5 environment: every collaborator succeeds; the character list
contains one character with and one without a usable reference. -/
def c5Env : GenEnv :=
  { loadCharactersForStory := fun _ => []
    describeCharacters := fun _ => .error "unused"
    generateStoryStructure := fun _ => .ok c4SD
    illustratePanel := fun p _ _ => .ok ("img-" ++ p.id)
    generateCover := fun _ => .ok "data:image/png;base64,COVER"
    generateVideo := fun _ => .ok { videoUrl := "http://v", requestId := "req1" }
    saveStoryToLibrary := fun _ => true
    newId := "story-5", now := 42 }

/-! ### Concrete storage fixtures for the storage claims -/

/-- An empty story configuration used by the storage fixtures. -/
def cfg0 : StoryConfig :=
  { prompt := "", theme := "", style := "", characters := [], setting := ""
    characterCount := 0, pageCount := none, targetAge := none }

/-- The story of the C8 witness: too large for the tiny store. -/
def c8Story : GeneratedStory :=
  { id := "s1", config := cfg0, characters := [], pages := []
    title := "A Rather Long Story Title"
    createdAt := 5, coverImage := none, coverVideo := none
    coverVideoRequestId := none }

/-- The empty 10-byte store of the C8 witness. -/
def c8Store : LStore :=
  { entries := [], capacity := 10 }

/-- A metadata index record of the C10 fixture. -/
def c10Meta (i : Nat) (n : String) : StoredStory :=
  { id := n, title := "", createdAt := i, config := cfg0
    characterCount := 0, pageCount := 0, thumbnailImage := none
    storageSize := 0 }

/-- The old story body evicted during the C10 run. -/
def c10OldStory : GeneratedStory :=
  { id := "o1", config := cfg0, characters := [], pages := []
    title := "", createdAt := 1, coverImage := none, coverVideo := none
    coverVideoRequestId := none }

/-- The new story the C10 run saves. -/
def c10NewStory : GeneratedStory :=
  { id := "s7", config := cfg0, characters := [], pages := []
    title := "tt", createdAt := 7, coverImage := none, coverVideo := none
    coverVideoRequestId := none }

/-- The C10 store: an old body plus a six-entry metadata index, sized
so the new body write fails, eviction clears the oldest story and
shrinks the index, and the retried body write succeeds. -/
def c10Store : LStore :=
  { entries :=
      [(bodyKey "o1", .story c10OldStory),
       (metaKey, .metas [c10Meta 1 "o1", c10Meta 2 "o2", c10Meta 3 "o3",
         c10Meta 4 "o4", c10Meta 5 "o5", c10Meta 6 "o6"])]
    capacity := 60 }

/-- The C10 store after eviction plus the retried body write: the
five newest index records and the new story body, but no index entry
for the new story. -/
def c10After : LStore :=
  { entries :=
      [(metaKey, .metas [c10Meta 6 "o6", c10Meta 5 "o5", c10Meta 4 "o4",
         c10Meta 3 "o3", c10Meta 2 "o2"]),
       (bodyKey "s7", .story c10NewStory)]
    capacity := 60 }

/-! ### Concrete service fixtures for the service-level claims -/

/-- A concrete failover run: the primary credential fails with a
retryable 429 quota error and the configured fallback's result is
returned, with exactly one call per credential. -/
def c1ApiCall : String → Except String Nat := fun c =>
  if c = "primary" then .error "HTTP 429: quota exceeded" else .ok 7

/-- The character used in the C6 counterexample and witness. -/
def c6Char : Character :=
  { id := "c1", name := "Ana", description := none, uploadedImage := none
    base64Image := none, mimeType := none, generatedDescription := none
    generatedDesignImage := none, designApproved := none, generatedArtwork := none }

/-- An attempt outcome of the retry loop that does not yield image
data: either the call threw, or the response carried no inline image. -/
def attemptYieldsNoImage : Except String (Option (List GPart)) → Bool
  | .ok r => (extractInlineImage r).isNone
  | .error _ => true

/-- Concrete attempts for the C7 witness: the first attempt returns an
empty payload, the second returns inline image data. -/
def c7Att : Nat → Except String (Option (List GPart)) := fun a =>
  if a = 1 then .ok (some [])
  else .ok (some [{ inlineData := some { data := some "QUJD", mimeType := some "image/png" } }])

/-- The cover-less story of the C9 witness. -/
def c9Story : GeneratedStory :=
  { id := "s1"
    config := { prompt := "p", theme := "magical", style := "comic"
                characters := [], setting := "sea", characterCount := 0
                pageCount := none, targetAge := none }
    characters := [], pages := [], title := "T", createdAt := 0
    coverImage := none, coverVideo := none, coverVideoRequestId := none }

/-- The C3 witness character: both an uploaded photo and a generated
design image are present. -/
def c3Char : Character :=
  { id := "c3", name := "Mia", description := none, uploadedImage := none
    base64Image := some "UPLOADBYTES", mimeType := some "image/jpeg"
    generatedDescription := none
    generatedDesignImage := some "data:image/png;base64,DESIGNBYTES"
    designApproved := some true, generatedArtwork := none }

/-- The C3 witness panel referencing that character. -/
def c3Panel : Panel :=
  { id := "p1", title := none, description := "scene", characters := ["Mia"]
    imageUrl := none, dialogue := none, narration := none }

/-! ## Claim theorems -/

/-- Claim C1: every request is first attempted with the primary
credential; if that attempt raises an error signalling HTTP 403, 429,
503 or a provider quota message and a fallback credential is
configured, the identical request is retried exactly once against the
fallback and the fallback's result is returned; any other error, or
failure of both credentials, propagates to the caller. -/
theorem callGeminiWithFallback_failover {Cred T : Type} (ai : Cred)
    (aiFallback : Option Cred) (apiCall : Cred → Except String T) :
    ((callGeminiWithFallback ai aiFallback apiCall).2.head? = some ai) ∧
    (∀ v, apiCall ai = .ok v →
      callGeminiWithFallback ai aiFallback apiCall = (.ok v, [ai])) ∧
    (∀ e fb, apiCall ai = .error e → isRetryableGeminiError e = true →
      aiFallback = some fb →
      callGeminiWithFallback ai aiFallback apiCall = (apiCall fb, [ai, fb])) ∧
    (∀ e, apiCall ai = .error e →
      (isRetryableGeminiError e = false ∨ aiFallback = none) →
      callGeminiWithFallback ai aiFallback apiCall = (.error e, [ai])) := by
  refine ⟨?_, ?_, ?_, ?_⟩
  · unfold callGeminiWithFallback
    cases h : apiCall ai with
    | ok v => rfl
    | error e =>
      cases aiFallback with
      | none => rfl
      | some fb => by_cases hr : isRetryableGeminiError e <;> simp [hr]
  · intro v hv
    unfold callGeminiWithFallback
    rw [hv]
  · intro e fb he hr hfb
    unfold callGeminiWithFallback
    rw [he, hfb]
    simp [hr]
  · intro e he hcase
    unfold callGeminiWithFallback
    rw [he]
    rcases hcase with hr | hfb
    · cases aiFallback with
      | none => rfl
      | some fb => simp [hr]
    · rw [hfb]

/-- Witness for C1: the failover theorem applied at a concrete
retryable failure. -/
theorem callGeminiWithFallback_failover_witness :
    c1ApiCall "primary" = .error "HTTP 429: quota exceeded" ∧
    isRetryableGeminiError "HTTP 429: quota exceeded" = true ∧
    callGeminiWithFallback "primary" (some "fallback") c1ApiCall =
      (.ok 7, ["primary", "fallback"]) := by
  refine ⟨rfl, by decide, ?_⟩
  have h := (callGeminiWithFallback_failover "primary" (some "fallback")
    c1ApiCall).2.2.1 "HTTP 429: quota exceeded" "fallback"
    rfl (by decide) rfl
  rw [h]
  rfl

/-- Counterexample for C6: a parseable response whose array length (0)
differs from the input length (1) is not rejected; the missing entry is
silently padded with the default description strings. -/
theorem generateCharacterDescriptions_pads_on_mismatch :
    ([] : List GenCharRecord).length ≠ [c6Char].length ∧
    generateCharacterDescriptions [c6Char] (some []) =
      .ok [{ c6Char with
        description := some "A friendly character named Ana"
        generatedDescription := some "A cartoon character with bright, friendly features" }] := by
  exact ⟨by decide, rfl⟩

/-- Claim C6 (amended): the call fails with the domain error exactly
when the response is unparseable JSON; a parsed array of mismatched
length is accepted — the output always has one entry per input
character, missing or falsy entries padded with fixed defaults and
extra entries ignored. -/
theorem generateCharacterDescriptions_spec (characters : List Character)
    (parsed : Option (List GenCharRecord)) :
    (parsed = none → generateCharacterDescriptions characters parsed =
      .error "The AI returned an invalid character description format.") ∧
    (∀ gen, parsed = some gen → ∃ out,
      generateCharacterDescriptions characters parsed = .ok out ∧
      out.length = characters.length ∧
      ∀ i c, characters.get? i = some c →
        out.get? i = some { c with
          description := some (jsFieldOr ((gen.get? i).map (·.description))
            ("A friendly character named " ++ c.name))
          generatedDescription := some (jsFieldOr ((gen.get? i).map (·.appearance))
            "A cartoon character with bright, friendly features") }) := by
  constructor
  · intro h
    subst h
    rfl
  · intro gen h
    subst h
    refine ⟨_, rfl, by simp [List.enum_length], ?_⟩
    intro i c hc
    rw [List.get?_map, List.get?_enum, hc]
    rfl

/-- Witness for C6 (amended): the spec theorem applied to a concrete
two-character input with a one-record response. -/
theorem generateCharacterDescriptions_spec_witness :
    (some [({ name := "Ana", description := "desc", personality := "p"
              appearance := "app", role := "r" } : GenCharRecord)] =
        some [({ name := "Ana", description := "desc", personality := "p"
                 appearance := "app", role := "r" } : GenCharRecord)]) ∧
    ∃ out, generateCharacterDescriptions [c6Char, { c6Char with id := "c2", name := "Bo" }]
        (some [{ name := "Ana", description := "desc", personality := "p"
                 appearance := "app", role := "r" }]) = .ok out ∧
      out.length = 2 := by
  refine ⟨rfl, ?_⟩
  obtain ⟨out, h1, h2, _⟩ :=
    (generateCharacterDescriptions_spec
      [c6Char, { c6Char with id := "c2", name := "Bo" }]
      (some [{ name := "Ana", description := "desc", personality := "p"
               appearance := "app", role := "r" }])).2
      [{ name := "Ana", description := "desc", personality := "p"
         appearance := "app", role := "r" }] rfl
  exact ⟨out, h1, h2⟩

/-- Claim C7: an image-producing call makes at most 2 provider
attempts with a fixed 1 s delay between them (sleeps = attempts − 1);
it returns the image of the first attempt that yields image data, and
if both attempts yield no image data it raises the generation-failed
error after exactly 2 attempts, no more. -/
theorem generateImageWithRetry_bounded
    (att : Nat → Except String (Option (List GPart))) :
    ((generateImageWithRetry att).2.1 ≤ 2) ∧
    ((generateImageWithRetry att).2.2 + 1 = (generateImageWithRetry att).2.1) ∧
    (∀ r img, att 1 = .ok r → extractInlineImage r = some img →
      generateImageWithRetry att = (.ok img, 1, 0)) ∧
    (∀ r2 img, attemptYieldsNoImage (att 1) = true → att 2 = .ok r2 →
      extractInlineImage r2 = some img →
      generateImageWithRetry att = (.ok img, 2, 1)) ∧
    (attemptYieldsNoImage (att 1) = true → attemptYieldsNoImage (att 2) = true →
      ∃ msg, generateImageWithRetry att = (.error msg, 2, 1)) := by
  have hsecond : attemptYieldsNoImage (att 2) = true →
      ∃ msg, retrySecondAttempt att = (.error msg, 2, 1) := by
    intro h2
    rcases ha : att 2 with e | r
    · exact ⟨attemptFailMsg 2 e, by simp [retrySecondAttempt, ha]⟩
    · have h2' : extractInlineImage r = none := by
        rw [ha] at h2
        simpa [attemptYieldsNoImage, Option.isNone_iff_eq_none] using h2
      exact ⟨noImageMsg 2, by simp [retrySecondAttempt, ha, h2']⟩
  have hsecondOk : ∀ r2 img, att 2 = .ok r2 → extractInlineImage r2 = some img →
      retrySecondAttempt att = (.ok img, 2, 1) := by
    intro r2 img ha hx
    simp [retrySecondAttempt, ha, hx]
  have hbounds : (generateImageWithRetry att).2.1 ≤ 2 ∧
      (generateImageWithRetry att).2.2 + 1 = (generateImageWithRetry att).2.1 := by
    rcases h1 : att 1 with e | r
    · rcases h2 : att 2 with e2 | r2
      · simp [generateImageWithRetry, retrySecondAttempt, h1, h2]
      · rcases h3 : extractInlineImage r2 with _ | img
        · simp [generateImageWithRetry, retrySecondAttempt, h1, h2, h3]
        · simp [generateImageWithRetry, retrySecondAttempt, h1, h2, h3]
    · rcases h1x : extractInlineImage r with _ | img
      · rcases h2 : att 2 with e2 | r2
        · simp [generateImageWithRetry, retrySecondAttempt, h1, h1x, h2]
        · rcases h3 : extractInlineImage r2 with _ | img
          · simp [generateImageWithRetry, retrySecondAttempt, h1, h1x, h2, h3]
          · simp [generateImageWithRetry, retrySecondAttempt, h1, h1x, h2, h3]
      · simp [generateImageWithRetry, h1, h1x]
  refine ⟨hbounds.1, hbounds.2, ?_, ?_, ?_⟩
  · intro r img h1 hx
    simp [generateImageWithRetry, h1, hx]
  · intro r2 img h1 ha hx
    rcases hc : att 1 with e | r
    · rw [show generateImageWithRetry att = retrySecondAttempt att by
        simp [generateImageWithRetry, hc]]
      exact hsecondOk r2 img ha hx
    · have h1' : extractInlineImage r = none := by
        rw [hc] at h1
        simpa [attemptYieldsNoImage, Option.isNone_iff_eq_none] using h1
      rw [show generateImageWithRetry att = retrySecondAttempt att by
        simp [generateImageWithRetry, hc, h1']]
      exact hsecondOk r2 img ha hx
  · intro h1 h2
    rcases hc : att 1 with e | r
    · rw [show generateImageWithRetry att = retrySecondAttempt att by
        simp [generateImageWithRetry, hc]]
      exact hsecond h2
    · have h1' : extractInlineImage r = none := by
        rw [hc] at h1
        simpa [attemptYieldsNoImage, Option.isNone_iff_eq_none] using h1
      rw [show generateImageWithRetry att = retrySecondAttempt att by
        simp [generateImageWithRetry, hc, h1']]
      exact hsecond h2

/-- Witness for C7: the bounded-retry theorem applied at concrete
attempts — empty payload then a valid image is accepted on the second
attempt, with one sleep. -/
theorem generateImageWithRetry_bounded_witness :
    attemptYieldsNoImage (c7Att 1) = true ∧
    generateImageWithRetry c7Att =
      (.ok "data:image/png;base64,QUJD", 2, 1) := by
  refine ⟨by decide, ?_⟩
  exact (generateImageWithRetry_bounded c7Att).2.2.2.1
    (some [{ inlineData := some { data := some "QUJD", mimeType := some "image/png" } }])
    "data:image/png;base64,QUJD" (by decide) rfl (by decide)

/-- Claim C9: cover-video generation on a story without a cover image
fails with the missing-cover-image precondition error before any
provider call is made; every submitted request presupposes a truthy
cover image. -/
theorem generateCoverVideo_requires_cover (falKey : Option String)
    (subscribe : SubmitInput → Except String SubscribeResult)
    (story : GeneratedStory) (options : VideoOptions) :
    (truthy story.coverImage = false →
      vgGenerateCoverVideo falKey subscribe story options =
        (.error "Story must have a cover image to generate video", [])) ∧
    (∀ inp, inp ∈ (vgGenerateCoverVideo falKey subscribe story options).2 →
      truthy story.coverImage = true) := by
  constructor
  · intro h
    unfold vgGenerateCoverVideo
    rw [h]
    rfl
  · intro inp hmem
    cases h : truthy story.coverImage with
    | true => rfl
    | false =>
      unfold vgGenerateCoverVideo at hmem
      rw [h] at hmem
      simp at hmem

/-- Witness for C9: the precondition theorem applied at a concrete
story lacking a cover image. -/
theorem generateCoverVideo_requires_cover_witness :
    truthy c9Story.coverImage = false ∧
    vgGenerateCoverVideo (some "key") (fun i => .ok { url := "u", requestId := i.prompt })
        c9Story { duration := none, resolution := none, generateAudio := none } =
      (.error "Story must have a cover image to generate video", []) := by
  refine ⟨by decide, ?_⟩
  exact (generateCoverVideo_requires_cover (some "key")
    (fun i => .ok { url := "u", requestId := i.prompt }) c9Story
    { duration := none, resolution := none, generateAudio := none }).1 (by decide)

/-- The `imageParts` push loop accumulates exactly the per-character
conditioning choices, in order. -/
theorem foldlPush_eq (l : List Character) : ∀ acc,
    List.foldl (fun acc c =>
      match conditioningPart c with
      | some p => acc ++ [p]
      | none => acc) acc l = acc ++ l.filterMap conditioningPart := by
  induction l with
  | nil => intro acc; simp
  | cons c rest ih =>
    intro acc
    rcases h : conditioningPart c with _ | p <;>
      simp [List.filterMap_cons, h, ih]

/-- `pushImageParts` as a `filterMap` of the per-character branch. -/
theorem pushImageParts_eq_filterMap (chars : List Character) :
    pushImageParts chars = chars.filterMap conditioningPart := by
  have h := foldlPush_eq chars []
  simpa [pushImageParts] using h

/-- Claim C3: in every panel-illustration and cover-image request, a
referenced character with a truthy `generatedDesignImage` contributes
the part built from that design image (its data-URI payload bytes),
never the uploaded photo; the uploaded photo is the conditioning input
only when no design image exists. -/
theorem panelImageParts_design_priority (characters : List Character)
    (panel : Panel) :
    (panelImageParts characters panel =
      (characters.filter fun c => panel.characters.contains c.name).filterMap
        conditioningPart) ∧
    (coverImageParts characters = characters.filterMap conditioningPart) ∧
    (∀ c : Character, truthy c.generatedDesignImage = true →
      ∃ d, c.generatedDesignImage = some d ∧
        conditioningPart c = some (partFromDesign d) ∧
        (partFromDesign d).data = dataUriPayload d) ∧
    (∀ c : Character, truthy c.generatedDesignImage = false →
      truthy c.base64Image = true → truthy c.mimeType = true →
      conditioningPart c = some (partFromUpload c)) ∧
    (∀ c : Character, truthy c.generatedDesignImage = false →
      (truthy c.base64Image = false ∨ truthy c.mimeType = false) →
      conditioningPart c = none) := by
  refine ⟨?_, ?_, ?_, ?_, ?_⟩
  · unfold panelImageParts
    exact pushImageParts_eq_filterMap _
  · unfold coverImageParts
    exact pushImageParts_eq_filterMap _
  · intro c h
    rcases hd : c.generatedDesignImage with _ | d
    · rw [hd] at h
      simp [truthy] at h
    · have h' : truthy (some d) = true := by
        rw [hd] at h
        exact h
      exact ⟨d, rfl, by simp [conditioningPart, hd, h'], rfl⟩
  · intro c h1 h2 h3
    simp [conditioningPart, h1, h2, h3]
  · intro c h1 h2
    rcases h2 with h2 | h2 <;> simp [conditioningPart, h1, h2]

/-- Witness for C3: the priority theorem applied at a character holding
both images — the conditioning part carries the design image's payload. -/
theorem panelImageParts_design_priority_witness :
    truthy c3Char.generatedDesignImage = true ∧
    ∃ d, c3Char.generatedDesignImage = some d ∧
      conditioningPart c3Char = some (partFromDesign d) ∧
      (partFromDesign d).data = dataUriPayload d ∧
      panelImageParts [c3Char] c3Panel = [partFromDesign d] := by
  refine ⟨by decide, ?_⟩
  obtain ⟨d, hd, hc, hdata⟩ :=
    (panelImageParts_design_priority [c3Char] c3Panel).2.2.1 c3Char (by decide)
  refine ⟨d, hd, hc, hdata, ?_⟩
  rw [(panelImageParts_design_priority [c3Char] c3Panel).1]
  have hf : ([c3Char].filter fun c => c3Panel.characters.contains c.name) =
      [c3Char] := by decide
  rw [hf]
  simp [List.filterMap_cons, hc]

/-- Structure of the inner panel loop: panels map to their outcomes,
every call passes the same character list, and the counter advances by
the number of panels. -/
theorem panelsLoop_spec (env : GenEnv) (chars : List Character) (style : String)
    (total pn : Nat) : ∀ (ps : List Panel) (cur : Nat),
    (panelsLoop env chars style total pn ps cur).1 =
      ps.map (panelOutcome env chars style) ∧
    (panelsLoop env chars style total pn ps cur).2.2.1 =
      ps.map (fun p => (p, chars)) ∧
    (panelsLoop env chars style total pn ps cur).2.2.2 = cur + ps.length := by
  intro ps
  induction ps with
  | nil => intro cur; simp [panelsLoop]
  | cons p rest ih =>
    intro cur
    refine ⟨?_, ?_, ?_⟩
    · simp [panelsLoop, panelOutcome, (ih (cur + 1)).1]
    · simp [panelsLoop, (ih (cur + 1)).2.1]
    · simp only [panelsLoop, (ih (cur + 1)).2.2, List.length_cons]
      omega

/-- Structure of the outer page loop: pages keep their identity with
panels mapped to their outcomes, and the calls are the panels in
reading order, each with the same character list. -/
theorem pagesLoop_spec (env : GenEnv) (chars : List Character) (style : String)
    (total : Nat) : ∀ (pages : List StoryPage) (cur : Nat),
    (pagesLoop env chars style total pages cur).1 =
      pages.map (fun pg =>
        { pg with panels := pg.panels.map (panelOutcome env chars style) }) ∧
    (pagesLoop env chars style total pages cur).2.2 =
      pages.flatMap (fun pg => pg.panels.map (fun p => (p, chars))) := by
  intro pages
  induction pages with
  | nil => intro cur; simp [pagesLoop]
  | cons pg rest ih =>
    intro cur
    have hp := panelsLoop_spec env chars style total pg.pageNumber pg.panels cur
    constructor
    · simp [pagesLoop, hp.1, (ih _).1]
    · simp [pagesLoop, hp.2.1, (ih _).2]

/-- `generatePanelArt` maps every panel to its outcome in place and
calls the illustrator once per panel, in reading order, always with
the same character list. -/
theorem generatePanelArt_spec (env : GenEnv) (pages : List StoryPage)
    (chars : List Character) (style : String) :
    (generatePanelArt env pages chars style).1 =
      pages.map (fun pg =>
        { pg with panels := pg.panels.map (panelOutcome env chars style) }) ∧
    (generatePanelArt env pages chars style).2.2 =
      pages.flatMap (fun pg => pg.panels.map (fun p => (p, chars))) := by
  unfold generatePanelArt
  exact ⟨(pagesLoop_spec env chars style _ pages 0).1,
    (pagesLoop_spec env chars style _ pages 0).2⟩

/-- Characterization of a successful pipeline run: once character
preparation and structure generation succeed, the run returns a story
whose title, filtered character list and per-panel outcomes are as the
stage contracts describe, and whose illustration and cover calls all
receive the filtered character list. -/
theorem generateCompleteStory_ok (env : GenEnv) (config : StoryConfig)
    (characters cds : List Character) (sd : StoryData)
    (hprep : (loadAndEnhanceCharacters env characters).1 = .ok cds)
    (hsd : env.generateStoryStructure cds = .ok sd) :
    ∃ story, (generateCompleteStory env config characters).result = .ok story ∧
      story.title = sd.title ∧
      story.characters = cds.filter usableRef ∧
      story.pages = sd.pages.map (fun pg =>
        { pg with
          panels := pg.panels.map (panelOutcome env (cds.filter usableRef) config.style) }) ∧
      (generateCompleteStory env config characters).panelCalls =
        sd.pages.flatMap (fun pg => pg.panels.map
          (fun p => (p, cds.filter usableRef))) ∧
      (generateCompleteStory env config characters).coverCalls =
        [cds.filter usableRef] := by
  have hart := generatePanelArt_spec env sd.pages (cds.filter usableRef) config.style
  unfold generateCompleteStory
  simp only [hprep, hsd]
  rcases hcov : env.generateCover (cds.filter usableRef) with e | img
  · simp only [hcov, truthy, Bool.false_eq_true, if_false]
    exact ⟨_, rfl, rfl, rfl, hart.1, hart.2, trivial⟩
  · rcases himg : img.isEmpty with _ | _
    · simp only [hcov, truthy, himg, Bool.not_false, if_true]
      rcases hvid : env.generateVideo _ with e2 | vr
      · simp only [hvid]
        exact ⟨_, rfl, rfl, rfl, hart.1, hart.2, trivial⟩
      · simp only [hvid]
        exact ⟨_, rfl, rfl, rfl, hart.1, hart.2, trivial⟩
    · simp only [hcov, truthy, himg, Bool.not_true, Bool.false_eq_true, if_false]
      exact ⟨_, rfl, rfl, rfl, hart.1, hart.2, trivial⟩

/-- Claim C2: in a full-pipeline run whose character preparation and
structure generation succeed, a panel illustration failure does not
abort the run — the story is returned with the generated pages and
panels in order, a panel whose call threw kept unchanged (no image
added), and every panel whose call succeeded carrying its generated
image. -/
theorem generateCompleteStory_panel_failure_contained (env : GenEnv)
    (config : StoryConfig) (characters cds : List Character) (sd : StoryData)
    (hprep : (loadAndEnhanceCharacters env characters).1 = .ok cds)
    (hsd : env.generateStoryStructure cds = .ok sd) :
    ∃ story, (generateCompleteStory env config characters).result = .ok story ∧
      story.pages = sd.pages.map (fun pg =>
        { pg with
          panels := pg.panels.map (panelOutcome env (cds.filter usableRef) config.style) }) ∧
      (∀ p : Panel, ∀ e, env.illustratePanel p (cds.filter usableRef) config.style = .error e →
        panelOutcome env (cds.filter usableRef) config.style p = p) ∧
      (∀ p : Panel, ∀ img, env.illustratePanel p (cds.filter usableRef) config.style = .ok img →
        panelOutcome env (cds.filter usableRef) config.style p =
          { p with imageUrl := some img }) := by
  obtain ⟨story, hres, _, _, hpages, _, _⟩ :=
    generateCompleteStory_ok env config characters cds sd hprep hsd
  refine ⟨story, hres, hpages, ?_, ?_⟩
  · intro p e he
    simp [panelOutcome, he]
  · intro p img hi
    simp [panelOutcome, hi]

/-- Witness for C2: the containment theorem applied at a concrete run
where panel 2 of 3 throws — the story still has all three panels in
order, panels 1 and 3 with image data, panel 2 without. -/
theorem generateCompleteStory_panel_failure_contained_witness :
    (loadAndEnhanceCharacters c2Env [rexChar]).1 = .ok [rexChar] ∧
    c2Env.generateStoryStructure [rexChar] = .ok c2SD ∧
    ∃ story, (generateCompleteStory c2Env baseConfig [rexChar]).result = .ok story ∧
      story.pages =
        [{ id := "pg1", pageNumber := 1,
           panels := [{ mkPanel "p1" with imageUrl := some "img-p1" }, mkPanel "p2",
             { mkPanel "p3" with imageUrl := some "img-p3" }] }] := by
  refine ⟨rfl, rfl, ?_⟩
  obtain ⟨story, hres, hpages, _, _⟩ :=
    generateCompleteStory_panel_failure_contained c2Env baseConfig [rexChar]
      [rexChar] c2SD rfl rfl
  refine ⟨story, hres, ?_⟩
  rw [hpages]
  decide

/-- Claim C4 (evaluated at the failing input): a fully successful
one-panel run delivers the progress sequence
5, 10, 25, 35, 45, 95, 85, 85, 90, 95, 100 — the last panel reports 95
and the following cover stage reports 85, so the sequence is not
non-decreasing, although it does end at exactly 100. -/
theorem generateCompleteStory_progress_not_monotone :
    (∃ story, (generateCompleteStory c4Env baseConfig [rexChar]).result = .ok story) ∧
    tracePercents (generateCompleteStory c4Env baseConfig [rexChar]).trace =
      [5, 10, 25, 35, 45, 95, 85, 85, 90, 95, 100] ∧
    (tracePercents (generateCompleteStory c4Env baseConfig [rexChar]).trace).get? 5 =
      some 95 ∧
    (tracePercents (generateCompleteStory c4Env baseConfig [rexChar]).trace).get? 6 =
      some 85 ∧
    ¬ ((95 : ℚ) ≤ 85) ∧
    (tracePercents (generateCompleteStory c4Env baseConfig [rexChar]).trace).getLast? =
      some 100 := by
  obtain ⟨story, hres, _⟩ :=
    generateCompleteStory_ok c4Env baseConfig [rexChar] [rexChar] c4SD rfl rfl
  have htr : (generateCompleteStory c4Env baseConfig [rexChar]).trace =
      [("Preparing characters...", 5), ("Loading saved characters...", 10),
       ("Creating story structure...", 25), ("Using approved character designs...", 35),
       ("Creating panel illustrations...", 45),
       ("Illustrating page 1, panel p1...",
         60 + (((1 : ℕ) : ℚ) / ((1 : ℕ) : ℚ)) * 35),
       ("Generating cover image...", 85), ("Finalizing storybook...", 85),
       ("Saving to library...", 90), ("Creating animated cover video...", 95),
       ("Story and video complete!", 100)] := rfl
  have hpcts : tracePercents (generateCompleteStory c4Env baseConfig [rexChar]).trace =
      [5, 10, 25, 35, 45, 95, 85, 85, 90, 95, 100] := by
    rw [htr]
    simp only [tracePercents, List.map]
    norm_num
  refine ⟨⟨story, hres⟩, hpcts, ?_, ?_, by norm_num, ?_⟩
  · rw [hpcts]
    rfl
  · rw [hpcts]
    rfl
  · rw [hpcts]
    rfl

/-- Counterexample for C5: a concrete successful run in which a
character of the prepared list lacking any usable visual reference is
absent from the returned story's `characters` list, contradicting the
claim that it remains present. -/
theorem generateCompleteStory_drops_unusable_character :
    (loadAndEnhanceCharacters c5Env [rexChar, ghostChar]).1 = .ok [rexChar, ghostChar] ∧
    usableRef ghostChar = false ∧
    ∃ story, (generateCompleteStory c5Env baseConfig [rexChar, ghostChar]).result =
        .ok story ∧
      story.characters = [rexChar] ∧ ghostChar ∉ story.characters := by
  refine ⟨rfl, by decide, ?_⟩
  obtain ⟨story, hres, _, hchars, _, _, _⟩ :=
    generateCompleteStory_ok c5Env baseConfig [rexChar, ghostChar]
      [rexChar, ghostChar] c4SD rfl rfl
  refine ⟨story, hres, ?_, ?_⟩
  · rw [hchars]
    decide
  · rw [hchars]
    decide

/-- Claim C5 (amended): characters lacking a usable visual reference
after preparation are excluded from every subsequent illustration call
(panel and cover) and are also omitted from the characters list of the
returned story, which is exactly the filtered list; they are not kept
in the returned character list. -/
theorem generateCompleteStory_characters_filtered (env : GenEnv)
    (config : StoryConfig) (characters cds : List Character) (sd : StoryData)
    (hprep : (loadAndEnhanceCharacters env characters).1 = .ok cds)
    (hsd : env.generateStoryStructure cds = .ok sd) :
    ∃ story, (generateCompleteStory env config characters).result = .ok story ∧
      story.characters = cds.filter usableRef ∧
      (∀ call ∈ (generateCompleteStory env config characters).panelCalls,
        call.2 = cds.filter usableRef) ∧
      (∀ cs ∈ (generateCompleteStory env config characters).coverCalls,
        cs = cds.filter usableRef) ∧
      (∀ c ∈ cds, usableRef c = false →
        c ∉ story.characters ∧
        (∀ call ∈ (generateCompleteStory env config characters).panelCalls,
          c ∉ call.2) ∧
        (∀ cs ∈ (generateCompleteStory env config characters).coverCalls,
          c ∉ cs)) := by
  obtain ⟨story, hres, _, hchars, _, hcalls, hcov⟩ :=
    generateCompleteStory_ok env config characters cds sd hprep hsd
  have hcall2 : ∀ call ∈ (generateCompleteStory env config characters).panelCalls,
      call.2 = cds.filter usableRef := by
    intro call hmem
    rw [hcalls] at hmem
    simp only [List.mem_flatMap, List.mem_map] at hmem
    obtain ⟨pg, _, p, _, heq⟩ := hmem
    rw [← heq]
  have hcov2 : ∀ cs ∈ (generateCompleteStory env config characters).coverCalls,
      cs = cds.filter usableRef := by
    intro cs hmem
    rw [hcov] at hmem
    simp only [List.mem_singleton] at hmem
    exact hmem
  refine ⟨story, hres, hchars, hcall2, hcov2, ?_⟩
  intro c _ hfalse
  have hnotin : c ∉ cds.filter usableRef := by
    intro hmem
    rw [List.mem_filter] at hmem
    rw [hfalse] at hmem
    exact absurd hmem.2 (by simp)
  refine ⟨by rw [hchars]; exact hnotin, ?_, ?_⟩
  · intro call hmem
    rw [hcall2 call hmem]
    exact hnotin
  · intro cs hmem
    rw [hcov2 cs hmem]
    exact hnotin

/-- Witness for C5 (amended): the filtering theorem applied at the
concrete two-character run — the unusable character is in no
illustration call and not in the returned character list. -/
theorem generateCompleteStory_characters_filtered_witness :
    usableRef ghostChar = false ∧
    ∃ story, (generateCompleteStory c5Env baseConfig [rexChar, ghostChar]).result =
        .ok story ∧
      story.characters = List.filter usableRef [rexChar, ghostChar] ∧
      (∀ call ∈ (generateCompleteStory c5Env baseConfig [rexChar, ghostChar]).panelCalls,
        ghostChar ∉ call.2) := by
  refine ⟨by decide, ?_⟩
  obtain ⟨story, hres, hchars, _, _, hlast⟩ :=
    generateCompleteStory_characters_filtered c5Env baseConfig [rexChar, ghostChar]
      [rexChar, ghostChar] c4SD rfl rfl
  obtain ⟨_, hcalls, _⟩ := hlast ghostChar (by decide) (by decide)
  exact ⟨story, hres, hchars, hcalls⟩

/-- A Boolean that is not `true` is `false`. -/
theorem bool_not_true {b : Bool} (h : ¬ b = true) : b = false := by
  cases b
  · rfl
  · exact absurd rfl h

/-- Replacing the value under an existing key leaves that key's lookup
at the new value. -/
theorem find?_replaceKey_self (k : String) (v : Val) :
    ∀ es : List (String × Val), es.any (·.1 == k) = true →
    (es.map fun e => if e.1 == k then (k, v) else e).find? (·.1 == k) =
      some (k, v) := by
  intro es
  induction es with
  | nil => intro h; simp at h
  | cons e rest ih =>
    intro h
    simp only [List.map_cons]
    by_cases he : (e.1 == k) = true
    · rw [if_pos he]
      exact List.find?_cons_of_pos _ (by simp)
    · rw [if_neg he]
      have he' : (e.1 == k) = false := bool_not_true he
      simp only [List.find?_cons, he']
      rw [List.any_cons, he', Bool.false_or] at h
      exact ih h

/-- Replacing the value under one key does not change lookups of a
different key. -/
theorem find?_replaceKey_ne (k k' : String) (v : Val) (hne : (k == k') = false) :
    ∀ es : List (String × Val),
    (es.map fun e => if e.1 == k then (k, v) else e).find? (·.1 == k') =
      es.find? (·.1 == k') := by
  intro es
  induction es with
  | nil => rfl
  | cons e rest ih =>
    simp only [List.map_cons]
    by_cases he : (e.1 == k) = true
    · rw [if_pos he]
      have h1 : e.1 = k := by simpa using he
      simp only [List.find?_cons, h1, hne]
      exact ih
    · rw [if_neg he]
      by_cases he' : (e.1 == k') = true
      · simp only [List.find?_cons, he']
      · have he'' : (e.1 == k') = false := bool_not_true he'
        simp only [List.find?_cons, he'']
        exact ih

/-- Appending a fresh key makes it the found entry when the old entries
did not carry it. -/
theorem find?_appendKey_self (k : String) (v : Val) :
    ∀ es : List (String × Val), es.any (·.1 == k) = false →
    (es ++ [(k, v)]).find? (·.1 == k) = some (k, v) := by
  intro es
  induction es with
  | nil =>
    intro _
    rw [List.nil_append]
    exact List.find?_cons_of_pos _ (by simp)
  | cons e rest ih =>
    intro h
    rw [List.any_cons, Bool.or_eq_false_iff] at h
    rw [List.cons_append]
    simp only [List.find?_cons, h.1]
    exact ih h.2

/-- Appending an entry under a different key does not change lookups. -/
theorem find?_appendKey_ne (k k' : String) (v : Val) (hne : (k == k') = false) :
    ∀ es : List (String × Val),
    (es ++ [(k, v)]).find? (·.1 == k') = es.find? (·.1 == k') := by
  intro es
  induction es with
  | nil =>
    rw [List.nil_append]
    simp only [List.find?_cons, hne]
  | cons e rest ih =>
    rw [List.cons_append]
    by_cases he : (e.1 == k') = true
    · simp only [List.find?_cons, he]
    · have he' : (e.1 == k') = false := bool_not_true he
      simp only [List.find?_cons, he']
      exact ih

/-- A successful `setItem` makes the written key read back the written
value. -/
theorem getItem_setItem_self (st : LStore) (k : String) (v : Val) (st' : LStore)
    (h : setItem st k v = some st') : getItem st' k = some v := by
  unfold setItem at h
  by_cases hq : entriesSize (setEntries st.entries k v) > st.capacity
  · rw [if_pos hq] at h
    exact Option.noConfusion h
  · rw [if_neg hq, Option.some.injEq] at h
    subst h
    unfold getItem setEntries
    by_cases hany : st.entries.any (·.1 == k) = true
    · simp only [if_pos hany]
      rw [find?_replaceKey_self k v st.entries hany]
      rfl
    · have hany' : st.entries.any (·.1 == k) = false := bool_not_true hany
      simp only [hany', Bool.false_eq_true, if_false]
      rw [find?_appendKey_self k v st.entries hany']
      rfl

/-- A successful `setItem` does not change the lookup of any other
key. -/
theorem getItem_setItem_ne (st : LStore) (k k' : String) (v : Val) (st' : LStore)
    (h : setItem st k v = some st') (hne : (k == k') = false) :
    getItem st' k' = getItem st k' := by
  unfold setItem at h
  by_cases hq : entriesSize (setEntries st.entries k v) > st.capacity
  · rw [if_pos hq] at h
    exact Option.noConfusion h
  · rw [if_neg hq, Option.some.injEq] at h
    subst h
    unfold getItem setEntries
    by_cases hany : st.entries.any (·.1 == k) = true
    · simp only [if_pos hany]
      rw [find?_replaceKey_ne k k' v hne st.entries]
    · have hany' : st.entries.any (·.1 == k) = false := bool_not_true hany
      simp only [hany', Bool.false_eq_true, if_false]
      rw [find?_appendKey_ne k k' v hne st.entries]

/-- Membership is preserved by the stable insertion step. -/
theorem mem_insertMeta (m a : StoredStory) : ∀ l : List StoredStory,
    a ∈ insertMeta m l ↔ a = m ∨ a ∈ l := by
  intro l
  induction l with
  | nil => simp [insertMeta]
  | cons x xs ih =>
    unfold insertMeta
    by_cases h : m.createdAt < x.createdAt
    · rw [if_pos h]
      simp only [List.mem_cons, ih]
      tauto
    · rw [if_neg h]
      simp only [List.mem_cons]

/-- Sorting the metadata index newest-first preserves membership. -/
theorem mem_sortMetasDesc (a : StoredStory) : ∀ l : List StoredStory,
    a ∈ sortMetasDesc l ↔ a ∈ l := by
  intro l
  induction l with
  | nil => simp [sortMetasDesc]
  | cons x xs ih =>
    unfold sortMetasDesc
    rw [mem_insertMeta]
    simp [ih]

/-- Claim C8: when the body write raises a quota error, eviction runs
once and the write is retried exactly once; a failed retry is reported
as `false` (the embedding returns a flag, never an exception), and a
successful write reports `true`.  Stated away from the proactive 80 %
cleanup threshold, which the quota path does not involve. -/
theorem saveStory_quota_eviction_retry (fuel : Nat) (st : LStore)
    (story : GeneratedStory)
    (husage : getStorageUsage st * 10 ≤ MAX_STORAGE_SIZE_MB * 1024 * 1024 * 8) :
    (∀ st1, setItem st (bodyKey story.id) (.story story) = some st1 →
      (saveStory fuel st story).1 = true) ∧
    (setItem st (bodyKey story.id) (.story story) = none →
      saveStory fuel st story =
        match setItem (cleanupOldStories fuel st) (bodyKey story.id)
            (.story story) with
        | some st2 => (true, st2)
        | none => (false, cleanupOldStories fuel st)) := by
  have hcond : ¬ (getStorageUsage st * 10 > MAX_STORAGE_SIZE_MB * 1024 * 1024 * 8) :=
    not_lt.mpr husage
  constructor
  · intro st1 hset
    unfold saveStory
    simp only [if_neg hcond, hset]
  · intro hset
    unfold saveStory
    simp only [if_neg hcond, hset]

/-- Witness for C8: the quota theorem applied at a tiny store — the
body write fails, eviction runs, the single retry also fails, and
`saveStory` reports `false` without raising. -/
theorem saveStory_quota_eviction_retry_witness :
    getStorageUsage c8Store * 10 ≤ MAX_STORAGE_SIZE_MB * 1024 * 1024 * 8 ∧
    setItem c8Store (bodyKey c8Story.id) (.story c8Story) = none ∧
    saveStory 1 c8Store c8Story = (false, cleanupOldStories 1 c8Store) := by
  refine ⟨by decide, by decide, ?_⟩
  have h := (saveStory_quota_eviction_retry 1 c8Store c8Story (by decide)).2
    (by decide)
  rw [h]
  decide

/-- Claim C10: when the initial body write raises a quota error and the
retried body write succeeds, `saveStory` returns `true` without
touching the metadata index — `loadStory` then returns the story while
`getAllStoredStories` does not list it. -/
theorem saveStory_retry_skips_metadata_index (fuel : Nat) (st : LStore)
    (story : GeneratedStory) (st2 : LStore)
    (husage : getStorageUsage st * 10 ≤ MAX_STORAGE_SIZE_MB * 1024 * 1024 * 8)
    (hfail : setItem st (bodyKey story.id) (.story story) = none)
    (hretry : setItem (cleanupOldStories fuel st) (bodyKey story.id)
      (.story story) = some st2)
    (hkey : (bodyKey story.id == metaKey) = false)
    (hmeta : ∀ m ∈ getStoredStoryMetas (cleanupOldStories fuel st),
      m.id ≠ story.id) :
    saveStory fuel st story = (true, st2) ∧
    loadStory st2 story.id = some story ∧
    (∀ m ∈ getAllStoredStories st2, m.id ≠ story.id) := by
  have hcond : ¬ (getStorageUsage st * 10 > MAX_STORAGE_SIZE_MB * 1024 * 1024 * 8) :=
    not_lt.mpr husage
  refine ⟨?_, ?_, ?_⟩
  · unfold saveStory
    simp only [if_neg hcond, hfail, hretry]
  · unfold loadStory
    rw [getItem_setItem_self _ _ _ _ hretry]
  · intro m hm
    unfold getAllStoredStories at hm
    rw [mem_sortMetasDesc] at hm
    have hsame : getStoredStoryMetas st2 =
        getStoredStoryMetas (cleanupOldStories fuel st) := by
      unfold getStoredStoryMetas
      rw [getItem_setItem_ne _ _ _ _ _ hretry hkey]
    rw [hsame] at hm
    exact hmeta m hm

set_option maxRecDepth 40000

/-- Witness for C10: the index-skip theorem applied at a concrete store
where the old story body is evicted, the retried body write succeeds,
and the saved story is loadable but absent from the listed index. -/
theorem saveStory_retry_skips_metadata_index_witness :
    setItem c10Store (bodyKey c10NewStory.id) (.story c10NewStory) = none ∧
    setItem (cleanupOldStories 1 c10Store) (bodyKey c10NewStory.id)
      (.story c10NewStory) = some c10After ∧
    saveStory 1 c10Store c10NewStory = (true, c10After) ∧
    loadStory c10After c10NewStory.id = some c10NewStory ∧
    (∀ m ∈ getAllStoredStories c10After, m.id ≠ c10NewStory.id) := by
  have h := saveStory_retry_skips_metadata_index 1 c10Store c10NewStory c10After
    (by decide) (by decide) (by decide) (by decide) (by decide)
  exact ⟨by decide, by decide, h.1, h.2.1, h.2.2⟩

end KokoTales
